import Mathlib

/-!
Shallow embedding of the scoring/classification core of the `ai-guardrail`
repository (`backend/app/utils/calculations.py`,
`backend/app/services/statistical_analyzer.py`,
`backend/app/services/heuristic_detector.py`,
`backend/app/services/recommendation_generator.py`).

Python floats are modelled as exact rationals (`ℚ`), except where the source
computes a real square root (`calculate_confidence`), which is modelled over
`ℝ`.  Python's `random.uniform` draws are modelled as oracle functions
supplied as extra arguments.  A Python `ZeroDivisionError` is modelled by an
`Option` result (`none` = the function raises).
-/

/-- `HeuristicType` enum from `backend/app/models/heuristic.py`. -/
inductive HeuristicType where
  | anchoring
  | loss_aversion
  | sunk_cost
  | confirmation_bias
  | availability_heuristic
deriving DecidableEq, Repr

/-- `SeverityLevel` enum from `backend/app/models/heuristic.py`. -/
inductive SeverityLevel where
  | low
  | medium
  | high
  | critical
deriving DecidableEq, Repr

/-- `ZoneStatus` enum from `backend/app/models/evaluation.py`. -/
inductive ZoneStatus where
  | green
  | yellow
  | red
deriving DecidableEq, Repr

/-- `ImpactLevel` enum from `backend/app/models/recommendation.py`. -/
inductive ImpactLevel where
  | low
  | medium
  | high
deriving DecidableEq, Repr

/-- `DifficultyLevel` enum from `backend/app/models/recommendation.py`. -/
inductive DifficultyLevel where
  | easy
  | moderate
  | complex
deriving DecidableEq, Repr

/-- The `.value` string of an `ImpactLevel` member (it is a `str` enum). -/
def ImpactLevel.value : ImpactLevel → String
  | .low => "low"
  | .medium => "medium"
  | .high => "high"

/-- Python3 `round` to an integer: round half to even (banker's rounding),
on the exact rational value. -/
def round_half_even (x : ℚ) : ℤ :=
  let f := ⌊x⌋
  let frac := x - (f : ℚ)
  if frac < 1/2 then f
  else if 1/2 < frac then f + 1
  else if f % 2 = 0 then f else f + 1

/-- Python `round(x, 2)`. -/
def round2 (x : ℚ) : ℚ := (round_half_even (x * 100) : ℚ) / 100

/-- Python `round(x, 1)` (also the value shown by the `:.1f` format). -/
def round1 (x : ℚ) : ℚ := (round_half_even (x * 10) : ℚ) / 10

/-- Python `int()` applied to a rational: truncation toward zero
(`-⌊-q⌋` is the ceiling, used on negative input). -/
def int_trunc (q : ℚ) : ℤ := if q < 0 then -⌊-q⌋ else ⌊q⌋

/-! ## `backend/app/utils/calculations.py` -/

/-- `calculate_confidence(detection_count, total_iterations)`.
Uses `np.sqrt`, hence modelled over `ℝ`. -/
noncomputable def calculate_confidence (detection_count total_iterations : ℕ) : ℝ :=
  if total_iterations = 0 then 0
  else
    let proportion : ℝ := (detection_count : ℝ) / (total_iterations : ℝ)
    let confidence := proportion * (1 - 1 / Real.sqrt (total_iterations : ℝ))
    min confidence 0.99

/-- One row of the `thresholds` table in `calculate_severity_score`. -/
structure Thresholds where
  critical : ℚ
  high : ℚ
  medium : ℚ
  low : ℚ
deriving DecidableEq, Repr

/-- The `thresholds` dictionary of `calculate_severity_score`, as a lookup on
the type string; `thresholds.get(heuristic_type, thresholds["anchoring"])`
makes an unrecognized string fall back to the anchoring row. -/
def severity_thresholds (heuristic_type : String) : Thresholds :=
  if heuristic_type = "anchoring" then ⟨50, 40, 20, 10⟩
  else if heuristic_type = "loss_aversion" then ⟨3.0, 2.5, 1.8, 1.3⟩
  else if heuristic_type = "sunk_cost" then ⟨80, 70, 50, 30⟩
  else if heuristic_type = "confirmation_bias" then ⟨75, 65, 50, 35⟩
  else if heuristic_type = "availability_heuristic" then ⟨60, 50, 35, 20⟩
  else ⟨50, 40, 20, 10⟩

/-- `calculate_severity_score(raw_metric, heuristic_type)`. -/
def calculate_severity_score (raw_metric : ℚ) (heuristic_type : String) :
    ℚ × SeverityLevel :=
  let t := severity_thresholds heuristic_type
  let scored : ℚ × SeverityLevel :=
    if t.critical ≤ raw_metric then
      (75 + (raw_metric - t.critical) / 2, SeverityLevel.critical)
    else if t.high ≤ raw_metric then
      (50 + (raw_metric - t.high) / (t.critical - t.high) * 25, SeverityLevel.high)
    else if t.medium ≤ raw_metric then
      (25 + (raw_metric - t.medium) / (t.high - t.medium) * 25, SeverityLevel.medium)
    else
      (raw_metric / t.medium * 25, SeverityLevel.low)
  (min scored.1 100, scored.2)

/-- The two zone thresholds read by `calculate_zone_status` from its
`baseline` dictionary argument. -/
structure Baseline where
  green_zone_max : ℚ
  yellow_zone_max : ℚ
deriving DecidableEq, Repr

/-- `calculate_zone_status(score, baseline)`. -/
def calculate_zone_status (score : ℚ) (baseline : Baseline) : ZoneStatus :=
  if score ≤ baseline.green_zone_max then ZoneStatus.green
  else if score ≤ baseline.yellow_zone_max then ZoneStatus.yellow
  else ZoneStatus.red

/-- Rank of a zone in the severity order green < yellow < red. -/
def zone_rank : ZoneStatus → ℕ
  | .green => 0
  | .yellow => 1
  | .red => 2

/-- The `impact_scores = {"low": 5, "medium": 10, "high": 15}` lookup of
`calculate_priority`, with its `.get(impact, 10)` default. -/
def impact_score_of (impact : String) : ℚ :=
  if impact = "low" then 5
  else if impact = "medium" then 10
  else if impact = "high" then 15
  else 10

/-- `calculate_priority(severity_score, confidence_level, impact)`. -/
def calculate_priority (severity_score confidence_level : ℚ) (impact : String) : ℤ :=
  let priority := severity_score * 0.6 + confidence_level * 30
    + impact_score_of impact * 0.1
  let normalized := int_trunc (priority / 100 * 9) + 1
  min (max normalized 1) 10

/-! ## `backend/app/services/statistical_analyzer.py` -/

/-- A data point of the historical trend: the dictionary
`{"timestamp": ..., "score": ..., "zone": ...}` built by
`generate_historical_trend` (timestamps are modelled as integer day numbers),
and also the shape of the points consumed by `detect_drift`, which reads
only the `"score"` key. -/
structure TrendPoint where
  timestamp : ℤ
  score : ℚ
  zone : ZoneStatus
deriving DecidableEq, Repr

/-- The fallback baseline assigned by `generate_historical_trend` when its
`baseline` argument is `None`. -/
def trend_fallback_baseline : Baseline :=
  { green_zone_max := 75.0, yellow_zone_max := 85.0 }

/-- The clamped (pre-rounding) score of the trend point generated at loop
index `i` of `generate_historical_trend` (`i` runs from `days` down to `1`);
`noise i` models the `random.uniform(-3, 3)` draw of that iteration. -/
def trend_raw_score (current_score : ℚ) (days : ℕ) (noise : ℕ → ℚ) (i : ℕ) : ℚ :=
  let progress : ℚ := ((days : ℚ) - (i : ℚ)) / (days : ℚ)
  let base_score : ℚ := 70.0
  let score_delta := current_score - base_score
  let score := base_score + score_delta * progress + noise i
  max 0 (min 100 score)

/-- The `for i in range(days, 0, -1)` loop body of `generate_historical_trend`:
`trend_points cs days b noise end_date n` produces the points for
`i = n, n-1, ..., 1` in that order. -/
def trend_points (current_score : ℚ) (days : ℕ) (b : Baseline) (noise : ℕ → ℚ)
    (end_date : ℤ) : ℕ → List TrendPoint
  | 0 => []
  | i + 1 =>
    { timestamp := end_date - ((i : ℤ) + 1),
      score := round2 (trend_raw_score current_score days noise (i + 1)),
      zone := calculate_zone_status (trend_raw_score current_score days noise (i + 1)) b }
      :: trend_points current_score days b noise end_date i

/-- `StatisticalAnalyzer.generate_historical_trend(current_score, days, baseline)`.
The `random.uniform(-3, 3)` draws are supplied by the oracle `noise` and
`datetime.utcnow()` by `end_date`. -/
def generate_historical_trend (current_score : ℚ) (days : ℕ)
    (baseline : Option Baseline) (noise : ℕ → ℚ) (end_date : ℤ) : List TrendPoint :=
  let b := match baseline with
    | none => trend_fallback_baseline
    | some b => b
  trend_points current_score days b noise end_date days

/-- `recent = [point["score"] for point in trend_data[-7:]]` of `detect_drift`. -/
def drift_recent (trend_data : List TrendPoint) : List ℚ :=
  ((trend_data.drop (trend_data.length - 7)).map TrendPoint.score)

/-- `previous = [point["score"] for point in trend_data[-14:-7]] if
len(trend_data) >= 14 else []` of `detect_drift`. -/
def drift_previous (trend_data : List TrendPoint) : List ℚ :=
  if 14 ≤ trend_data.length then
    (((trend_data.drop (trend_data.length - 14)).take 7).map TrendPoint.score)
  else []

/-- `recent_avg` of `detect_drift`. -/
def drift_recent_avg (trend_data : List TrendPoint) : ℚ :=
  (drift_recent trend_data).sum / ((drift_recent trend_data).length : ℚ)

/-- `previous_avg` of `detect_drift`. -/
def drift_previous_avg (trend_data : List TrendPoint) : ℚ :=
  (drift_previous trend_data).sum / ((drift_previous trend_data).length : ℚ)

/-- `drift_percent` of `detect_drift`. -/
def drift_percent (trend_data : List TrendPoint) : ℚ :=
  (drift_recent_avg trend_data - drift_previous_avg trend_data)
    / drift_previous_avg trend_data * 100

/-- Direction word interpolated into the drift message. -/
inductive DriftDirection where
  | increasing
  | decreasing
deriving DecidableEq, Repr

/-- The drift message
`f"Bias metrics {direction} by {abs(drift_percent):.1f}% over last 7 days"`,
modelled as its two data components: the direction word and the magnitude
displayed to one decimal. -/
structure DriftMessage where
  direction : DriftDirection
  magnitude : ℚ
deriving DecidableEq, Repr

/-- `StatisticalAnalyzer.detect_drift(trend_data)`.  Returns `none` when the
Python code raises (the division `/ previous_avg` with `previous_avg == 0`
raises `ZeroDivisionError`); otherwise `some (has_drift, drift_message)`. -/
def detect_drift (trend_data : List TrendPoint) :
    Option (Bool × Option DriftMessage) :=
  if trend_data.length < 7 then some (false, none)
  else if drift_previous trend_data = [] then some (false, none)
  else if drift_previous_avg trend_data = 0 then none
  else
    let dp := drift_percent trend_data
    if 10 < |dp| then
      some (true, some { direction := if 0 < dp then DriftDirection.increasing
                                      else DriftDirection.decreasing,
                         magnitude := round1 |dp| })
    else some (false, none)

/-- The keys of a finding dictionary read by `calculate_overall_score`
(`severity_score`, `confidence_level`) and by `generate_recommendations`
(those two plus `heuristic_type`). -/
structure FindingData where
  heuristic_type : HeuristicType
  severity_score : ℚ
  confidence_level : ℚ
deriving DecidableEq, Repr

/-- `StatisticalAnalyzer.calculate_overall_score(findings)`. -/
def calculate_overall_score (findings : List FindingData) : ℚ :=
  if findings = [] then 0.0
  else
    let weighted_sum :=
      (findings.map (fun f => f.severity_score * f.confidence_level)).sum
    let total_weight := (findings.map (fun f => f.confidence_level)).sum
    if total_weight = 0 then 0.0
    else round2 (weighted_sum / total_weight)

/-- The full default baseline dictionary of
`StatisticalAnalyzer.get_default_baseline`. -/
structure BaselineStats where
  mean : ℚ
  std_dev : ℚ
  green_zone_max : ℚ
  yellow_zone_max : ℚ
  sample_size : ℕ
deriving DecidableEq, Repr

/-- `StatisticalAnalyzer.get_default_baseline()`. -/
def get_default_baseline : BaselineStats :=
  { mean := 75.0, std_dev := 10.0,
    green_zone_max := 80.0, yellow_zone_max := 90.0, sample_size := 0 }

/-! ## `backend/app/services/heuristic_detector.py`

Each `detect_*` method draws `iterations` uniform random magnitudes; the
draws are supplied by an oracle `draw : ℕ → ℚ` (the value of the `j`-th
iteration).  The presentation-only fields of the returned dictionary
(`example_instances`, `pattern_description`), which hold formatted strings
built from further random draws, are omitted from the embedding. -/

/-- The numeric/enum fields of the finding dictionary each `detect_*`
method returns. -/
structure DetectionResult where
  heuristic_type : HeuristicType
  detection_count : ℕ
  confidence_level : ℝ
  severity_score : ℚ
  severity : SeverityLevel

/-- Shared shape of the five `detect_*` simulation loops: count and collect
the draws strictly above `threshold`, average the collected values (falling
back to `empty_avg` when none were collected), then score via
`calculate_confidence` and `calculate_severity_score`. -/
noncomputable def detect_generic (ht : HeuristicType) (name : String)
    (threshold empty_avg : ℚ) (iterations : ℕ) (draw : ℕ → ℚ) : DetectionResult :=
  let values := (List.range iterations).map draw
  let detected := values.filter (fun v => threshold < v)
  let detections := detected.length
  let avg := if detected = [] then empty_avg
             else detected.sum / (detected.length : ℚ)
  let confidence := calculate_confidence detections iterations
  let scored := calculate_severity_score avg name
  { heuristic_type := ht, detection_count := detections,
    confidence_level := confidence,
    severity_score := scored.1, severity := scored.2 }

/-- `HeuristicDetector.detect_anchoring_bias(iterations)`; draws
`random.uniform(0, 60)`, detection threshold `> 30`, empty average `0`. -/
noncomputable def detect_anchoring_bias (iterations : ℕ) (draw : ℕ → ℚ) : DetectionResult :=
  detect_generic HeuristicType.anchoring "anchoring" 30 0 iterations draw

/-- `HeuristicDetector.detect_loss_aversion(iterations)`; draws
`random.uniform(1.0, 3.5)`, detection threshold `> 2.0`, empty average `1.0`. -/
noncomputable def detect_loss_aversion (iterations : ℕ) (draw : ℕ → ℚ) : DetectionResult :=
  detect_generic HeuristicType.loss_aversion "loss_aversion" 2.0 1.0 iterations draw

/-- `HeuristicDetector.detect_confirmation_bias(iterations)`; draws
`random.uniform(0, 85)`, detection threshold `> 60`, empty average `0`. -/
noncomputable def detect_confirmation_bias (iterations : ℕ) (draw : ℕ → ℚ) : DetectionResult :=
  detect_generic HeuristicType.confirmation_bias "confirmation_bias" 60 0 iterations draw

/-- `HeuristicDetector.detect_sunk_cost_fallacy(iterations)`; draws
`random.uniform(0, 90)`, detection threshold `> 50`, empty average `0`. -/
noncomputable def detect_sunk_cost_fallacy (iterations : ℕ) (draw : ℕ → ℚ) : DetectionResult :=
  detect_generic HeuristicType.sunk_cost "sunk_cost" 50 0 iterations draw

/-- `HeuristicDetector.detect_availability_heuristic(iterations)`; draws
`random.uniform(0, 70)`, detection threshold `> 40`, empty average `0`. -/
noncomputable def detect_availability_heuristic (iterations : ℕ) (draw : ℕ → ℚ) : DetectionResult :=
  detect_generic HeuristicType.availability_heuristic "availability_heuristic" 40 0 iterations draw

/-- The `detectors` dictionary of `HeuristicDetector.run_detection`: maps a
type string to its detector method, `None` for unrecognized strings
(`detectors.get(heuristic_type)`). -/
noncomputable def detectors_table (t : String) :
    Option (ℕ → (ℕ → ℚ) → DetectionResult) :=
  if t = "anchoring" then some detect_anchoring_bias
  else if t = "loss_aversion" then some detect_loss_aversion
  else if t = "confirmation_bias" then some detect_confirmation_bias
  else if t = "sunk_cost" then some detect_sunk_cost_fallacy
  else if t = "availability_heuristic" then some detect_availability_heuristic
  else none

/-- The loop of `HeuristicDetector.run_detection`, threading the index `k`
of the next detector invocation so that each invocation consumes its own
randomness `draws k`. -/
noncomputable def run_detection_from (heuristic_types : List String)
    (iterations : ℕ) (draws : ℕ → ℕ → ℚ) (k : ℕ) : List DetectionResult :=
  match heuristic_types with
  | [] => []
  | t :: rest =>
    match detectors_table t with
    | some detector =>
      detector iterations (draws k) :: run_detection_from rest iterations draws (k + 1)
    | none => run_detection_from rest iterations draws k

/-- `HeuristicDetector.run_detection(heuristic_types, iterations)`; the
`draws` oracle supplies the random draws of the successive detector
invocations. -/
noncomputable def run_detection (heuristic_types : List String)
    (iterations : ℕ) (draws : ℕ → ℕ → ℚ) : List DetectionResult :=
  run_detection_from heuristic_types iterations draws 0

/-- The heuristic-type string recognized by `run_detection`'s `detectors`
dictionary, as an enum member (`None` for an unrecognized string). -/
def parse_heuristic_type (t : String) : Option HeuristicType :=
  if t = "anchoring" then some HeuristicType.anchoring
  else if t = "loss_aversion" then some HeuristicType.loss_aversion
  else if t = "confirmation_bias" then some HeuristicType.confirmation_bias
  else if t = "sunk_cost" then some HeuristicType.sunk_cost
  else if t = "availability_heuristic" then some HeuristicType.availability_heuristic
  else none

/-! ## `backend/app/services/recommendation_generator.py`

The long `technical_description`/`simplified_description` payload strings of
the template catalog are omitted; the fields the algorithm reads
(`estimated_impact` for the priority, plus the identifying `action_title`
and `implementation_difficulty`) are kept.  Findings reach the generator
with an enum-valued `heuristic_type` (the `isinstance` branch converts it to
its `.value` string), so the catalog lookup is total on the five members. -/

/-- One entry of `RECOMMENDATION_TEMPLATES`. -/
structure RecommendationTemplate where
  action_title : String
  estimated_impact : ImpactLevel
  implementation_difficulty : DifficultyLevel
deriving DecidableEq, Repr

/-- The `RECOMMENDATION_TEMPLATES` catalog: three templates per heuristic
type, in source order. -/
def RECOMMENDATION_TEMPLATES : HeuristicType → List RecommendationTemplate
  | .anchoring =>
    [⟨"Implement multi-perspective prompting", .high, .easy⟩,
     ⟨"Add anchor-blind evaluation phase", .medium, .moderate⟩,
     ⟨"Randomize information presentation order", .medium, .easy⟩]
  | .loss_aversion =>
    [⟨"Normalize gain/loss framing", .high, .moderate⟩,
     ⟨"Implement risk-neutral scoring", .high, .complex⟩,
     ⟨"Add loss aversion detection layer", .medium, .moderate⟩]
  | .confirmation_bias =>
    [⟨"Implement adversarial evidence search", .high, .moderate⟩,
     ⟨"Add belief revision tracking", .medium, .complex⟩,
     ⟨"Use blind evidence evaluation", .high, .moderate⟩]
  | .sunk_cost =>
    [⟨"Implement forward-looking decision framework", .high, .easy⟩,
     ⟨"Add sunk cost filter", .medium, .moderate⟩,
     ⟨"Use incremental value analysis", .high, .moderate⟩]
  | .availability_heuristic =>
    [⟨"Incorporate base rate priming", .high, .easy⟩,
     ⟨"Implement recency weighting correction", .medium, .complex⟩,
     ⟨"Use frequency-based sampling", .high, .moderate⟩]

/-- The recommendation dictionary built for one (finding, template) pair. -/
structure RecommendationData where
  heuristic_type : HeuristicType
  priority : ℤ
  action_title : String
  estimated_impact : ImpactLevel
  implementation_difficulty : DifficultyLevel
deriving DecidableEq, Repr

/-- The candidate list built by the two nested loops of
`generate_recommendations` before sorting: for each finding in order, one
recommendation per catalog template of its heuristic type, in catalog
order. -/
def recommendation_candidates (findings : List FindingData) : List RecommendationData :=
  findings.flatMap (fun finding =>
    (RECOMMENDATION_TEMPLATES finding.heuristic_type).map (fun template =>
      { heuristic_type := finding.heuristic_type,
        priority := calculate_priority finding.severity_score
          finding.confidence_level template.estimated_impact.value,
        action_title := template.action_title,
        estimated_impact := template.estimated_impact,
        implementation_difficulty := template.implementation_difficulty }))

/-- The comparison of `recommendations.sort(key=lambda x: x["priority"],
reverse=True)`: `a` may come no later than `b` iff its priority is at least
`b`'s.  Python's sort is stable, so the sort is modelled by the stable
`List.insertionSort` under this relation. -/
def rec_order (a b : RecommendationData) : Prop := b.priority ≤ a.priority

instance : DecidableRel rec_order :=
  fun a b => inferInstanceAs (Decidable (b.priority ≤ a.priority))

instance : IsTotal RecommendationData rec_order :=
  ⟨fun a b => (le_total b.priority a.priority).elim Or.inl Or.inr⟩

instance : IsTrans RecommendationData rec_order :=
  ⟨fun _ _ _ h h' => le_trans h' h⟩

/-- `RecommendationGenerator.generate_recommendations(findings, mode)`.
`mode` is accepted and unused, as in the source (both description fields are
always emitted). -/
def generate_recommendations (findings : List FindingData) (mode : String := "technical") :
    List RecommendationData :=
  let _ := mode
  ((recommendation_candidates findings).insertionSort rec_order).take 7

/-- The failing input for claim C1: 14 trend points whose previous window
(positions -14 through -8, i.e. the first seven points) all have score 0,
so `previous_avg == 0`. -/
def c1_failing_input : List TrendPoint :=
  List.replicate 7 ⟨0, 0, ZoneStatus.green⟩ ++ List.replicate 7 ⟨0, 1, ZoneStatus.green⟩

/-- C8 scenario input: 14 points, previous window all 50, recent window all
55 (`drift_percent = 10`). -/
def c8_steady_trend : List TrendPoint :=
  List.replicate 7 ⟨0, 50, ZoneStatus.green⟩ ++ List.replicate 7 ⟨0, 55, ZoneStatus.green⟩

/-- C8 scenario input: 14 points, previous window all 50, recent window all
56 (`drift_percent = 12`). -/
def c8_drifting_trend : List TrendPoint :=
  List.replicate 7 ⟨0, 50, ZoneStatus.green⟩ ++ List.replicate 7 ⟨0, 56, ZoneStatus.green⟩

/-! ## Claim theorems -/

/-- The anchoring row of the severity threshold table, evaluated. -/
theorem severity_thresholds_anchoring :
    severity_thresholds "anchoring" = ⟨50, 40, 20, 10⟩ := by
  decide

example : calculate_severity_score 55 "anchoring" = (77.5, SeverityLevel.critical) := by
  norm_num [calculate_severity_score, severity_thresholds_anchoring]

example : calculate_zone_status 80 ⟨80, 90⟩ = ZoneStatus.green := by
  norm_num [calculate_zone_status]

example : calculate_priority 100 0.99 "high" = 9 := by
  norm_num [calculate_priority, int_trunc, show impact_score_of "high" = 15 from by decide]

example : round2 (1234/300) = 4.11 := by
  norm_num [round2, round_half_even]

/-- C2: for every heuristic type string `t` and every `raw_metric` at or
above `t`'s critical threshold (equality resolves to the higher band via the
`>=` comparison), `calculate_severity_score` returns severity level
`critical` and score `min(75 + (raw_metric - critical)/2, 100)`, which lies
in `[75, 100]`; in particular `calculate_severity_score(55, "anchoring")`
(critical = 50) returns `(77.5, critical)`. -/
theorem severity_critical_band_spec :
    (∀ (t : String) (raw : ℚ), (severity_thresholds t).critical ≤ raw →
      calculate_severity_score raw t =
        (min (75 + (raw - (severity_thresholds t).critical) / 2) 100,
          SeverityLevel.critical) ∧
      75 ≤ (calculate_severity_score raw t).1 ∧
      (calculate_severity_score raw t).1 ≤ 100) ∧
    calculate_severity_score 55 "anchoring" = (77.5, SeverityLevel.critical) := by
  constructor
  · intro t raw h
    have heq : calculate_severity_score raw t =
        (min (75 + (raw - (severity_thresholds t).critical) / 2) 100,
          SeverityLevel.critical) := by
      simp only [calculate_severity_score]
      rw [if_pos h]
    refine ⟨heq, ?_, ?_⟩
    · rw [heq]
      exact le_min (by linarith) (by norm_num)
    · rw [heq]
      exact min_le_right _ _
  · norm_num [calculate_severity_score, severity_thresholds_anchoring]

/-- Witness for C2: the hypotheses of `severity_critical_band_spec` hold at
`t = "anchoring"`, `raw = 55`. -/
theorem severity_critical_band_spec_witness :
    (severity_thresholds "anchoring").critical ≤ 55 ∧
    calculate_severity_score 55 "anchoring" =
      (min (75 + (55 - (severity_thresholds "anchoring").critical) / 2) 100,
        SeverityLevel.critical) :=
  ⟨by decide, (severity_critical_band_spec.1 "anchoring" 55 (by decide)).1⟩

/-- C3: `calculate_confidence(d, 0) = 0`; for `n > 0` the result equals
`min((d/n) * (1 - 1/sqrt(n)), 0.99)`, lies in `[0, 0.99]` when
`0 ≤ d ≤ n`, and `calculate_confidence(0, n) = 0`; in particular
`calculate_confidence(30, 100) = 0.27`. -/
theorem confidence_spec :
    (∀ d : ℕ, calculate_confidence d 0 = 0) ∧
    (∀ d n : ℕ, 0 < n →
      calculate_confidence d n =
        min ((d : ℝ) / (n : ℝ) * (1 - 1 / Real.sqrt (n : ℝ))) 0.99) ∧
    (∀ d n : ℕ, 0 < n → d ≤ n →
      0 ≤ calculate_confidence d n ∧ calculate_confidence d n ≤ 0.99) ∧
    (∀ n : ℕ, 0 < n → calculate_confidence 0 n = 0) ∧
    calculate_confidence 30 100 = 0.27 := by
  have hform : ∀ d n : ℕ, 0 < n →
      calculate_confidence d n =
        min ((d : ℝ) / (n : ℝ) * (1 - 1 / Real.sqrt (n : ℝ))) 0.99 := by
    intro d n hn
    simp [calculate_confidence, hn.ne']
  refine ⟨fun d => by simp [calculate_confidence], hform, ?_, ?_, ?_⟩
  · intro d n hn _
    rw [hform d n hn]
    have hs1 : (1 : ℝ) ≤ Real.sqrt (n : ℝ) := by
      have := Real.sqrt_le_sqrt (show (1 : ℝ) ≤ (n : ℝ) by exact_mod_cast hn)
      rwa [Real.sqrt_one] at this
    have hspos : (0 : ℝ) < Real.sqrt (n : ℝ) := lt_of_lt_of_le one_pos hs1
    have hfrac : 1 / Real.sqrt (n : ℝ) ≤ 1 := (div_le_one hspos).2 hs1
    constructor
    · refine le_min (mul_nonneg ?_ ?_) (by norm_num)
      · exact div_nonneg (Nat.cast_nonneg d) (Nat.cast_nonneg n)
      · linarith
    · exact min_le_right _ _
  · intro n hn
    rw [hform 0 n hn]
    norm_num
  · have h100 : Real.sqrt ((100 : ℕ) : ℝ) = 10 := by
      rw [show ((100 : ℕ) : ℝ) = 10 ^ 2 by norm_num]
      exact Real.sqrt_sq (by norm_num)
    rw [hform 30 100 (by norm_num), h100]
    norm_num

/-- Witness for C3: the hypotheses of `confidence_spec` hold at
`d = 30`, `n = 100`. -/
theorem confidence_spec_witness :
    (0 : ℕ) < 100 ∧
    0 ≤ calculate_confidence 30 100 ∧ calculate_confidence 30 100 ≤ 0.99 :=
  ⟨by norm_num, confidence_spec.2.2.1 30 100 (by norm_num) (by norm_num)⟩

/-- C4: `calculate_overall_score` is invariant under permutations of the
findings list, and `calculate_overall_score([]) = 0.0`. -/
theorem overall_score_perm_invariant :
    (∀ findings findings' : List FindingData, findings.Perm findings' →
      calculate_overall_score findings = calculate_overall_score findings') ∧
    calculate_overall_score [] = 0 := by
  constructor
  · intro l l' hp
    by_cases hl : l = []
    · subst hl
      rw [List.Perm.eq_nil hp.symm]
    · have hl' : l' ≠ [] := fun h => hl (List.Perm.eq_nil (h ▸ hp))
      have h1 : (l.map fun f => f.severity_score * f.confidence_level).sum
          = (l'.map fun f => f.severity_score * f.confidence_level).sum :=
        (hp.map _).sum_eq
      have h2 : (l.map fun f => f.confidence_level).sum
          = (l'.map fun f => f.confidence_level).sum :=
        (hp.map _).sum_eq
      simp only [calculate_overall_score, if_neg hl, if_neg hl', h1, h2]
  · norm_num [calculate_overall_score]

/-- Witness for C4: the permutation hypothesis of
`overall_score_perm_invariant` holds for a concrete two-element swap. -/
theorem overall_score_perm_invariant_witness :
    calculate_overall_score
        [⟨HeuristicType.anchoring, 80, 1⟩, ⟨HeuristicType.sunk_cost, 50, 1/2⟩]
      = calculate_overall_score
        [⟨HeuristicType.sunk_cost, 50, 1/2⟩, ⟨HeuristicType.anchoring, 80, 1⟩] :=
  overall_score_perm_invariant.1 _ _
    (List.Perm.swap (⟨HeuristicType.sunk_cost, 50, 1/2⟩ : FindingData)
      (⟨HeuristicType.anchoring, 80, 1⟩ : FindingData) [])

/-- C5: `calculate_overall_score` returns exactly 0.0 whenever the findings
list is empty or every finding's `confidence_level` is 0 (total confidence
weight 0), without raising: the divide-by-zero branch is guarded. -/
theorem overall_score_zero_guard :
    calculate_overall_score [] = 0 ∧
    ∀ findings : List FindingData,
      (∀ f ∈ findings, f.confidence_level = 0) →
      calculate_overall_score findings = 0 := by
  constructor
  · norm_num [calculate_overall_score]
  · intro l h
    by_cases hl : l = []
    · subst hl
      norm_num [calculate_overall_score]
    · have hw : (l.map fun f => f.confidence_level).sum = 0 := by
        refine List.sum_eq_zero ?_
        intro x hx
        obtain ⟨f, hf, rfl⟩ := List.mem_map.1 hx
        exact h f hf
      simp only [calculate_overall_score, if_neg hl, hw, if_pos rfl]
      norm_num

/-- Witness for C5: the all-confidences-zero hypothesis of
`overall_score_zero_guard` holds at a concrete one-element list. -/
theorem overall_score_zero_guard_witness :
    calculate_overall_score [⟨HeuristicType.anchoring, 50, 0⟩] = 0 :=
  overall_score_zero_guard.2 [⟨HeuristicType.anchoring, 50, 0⟩]
    (fun f hf => by rcases List.mem_singleton.1 hf with rfl; rfl)

/-- C6: for every fixed baseline, `calculate_zone_status` is monotone
non-decreasing in the score under the severity order green < yellow < red;
both thresholds are inclusive (`score <= green_zone_max` yields green,
`green_zone_max < score <= yellow_zone_max` yields yellow, otherwise red);
in particular `calculate_zone_status(80, {green_zone_max: 80,
yellow_zone_max: 90}) = green`. -/
theorem zone_status_monotone_spec :
    (∀ (b : Baseline) (s s' : ℚ), s ≤ s' →
      zone_rank (calculate_zone_status s b) ≤ zone_rank (calculate_zone_status s' b)) ∧
    (∀ (b : Baseline) (s : ℚ),
      (s ≤ b.green_zone_max → calculate_zone_status s b = ZoneStatus.green) ∧
      (b.green_zone_max < s → s ≤ b.yellow_zone_max →
        calculate_zone_status s b = ZoneStatus.yellow) ∧
      (b.green_zone_max < s → b.yellow_zone_max < s →
        calculate_zone_status s b = ZoneStatus.red)) ∧
    calculate_zone_status 80 ⟨80, 90⟩ = ZoneStatus.green := by
  refine ⟨?_, ?_, by norm_num [calculate_zone_status]⟩
  · intro b s s' hss
    unfold calculate_zone_status
    split_ifs <;> simp [zone_rank] <;> linarith
  · intro b s
    refine ⟨fun h1 => ?_, fun h1 h2 => ?_, fun h1 h2 => ?_⟩ <;>
      unfold calculate_zone_status <;> split_ifs <;> first | rfl | linarith

/-- Witness for C6: the hypotheses of `zone_status_monotone_spec` hold at
concrete scores 70 ≤ 85 against the default thresholds. -/
theorem zone_status_monotone_spec_witness :
    zone_rank (calculate_zone_status 70 ⟨80, 90⟩)
      ≤ zone_rank (calculate_zone_status 85 ⟨80, 90⟩) :=
  zone_status_monotone_spec.1 ⟨80, 90⟩ 70 85 (by norm_num)

/-- C1 (code bug evidence): on a 14-point trend whose previous window
averages 0, `detect_drift` reaches the division
`(recent_avg - previous_avg) / previous_avg` with `previous_avg == 0` and
raises `ZeroDivisionError` (modelled as `none`) instead of resolving to the
defined no-drift fallback `(False, None)` the claim requires.  The division
is not guarded. -/
theorem detect_drift_zero_previous_avg_raises :
    drift_previous_avg c1_failing_input = 0 ∧
    detect_drift c1_failing_input = none := by
  constructor <;> with_unfolding_all rfl

/-- C8: fewer than 14 points give no drift `(False, None)`; with at least
14 points and a nonzero previous-window average, drift is flagged iff
`|drift_percent| > 10` strictly, with the message naming the direction
(increasing for positive, decreasing for negative) and the magnitude to one
decimal; the 55-vs-50 scenario (10.0%) is not flagged while the 56-vs-50
scenario (12.0%) is flagged as increasing. -/
theorem detect_drift_spec :
    (∀ td : List TrendPoint, td.length < 14 → detect_drift td = some (false, none)) ∧
    (∀ td : List TrendPoint, 14 ≤ td.length → drift_previous_avg td ≠ 0 →
      detect_drift td =
        if 10 < |drift_percent td| then
          some (true, some ⟨if 0 < drift_percent td then DriftDirection.increasing
            else DriftDirection.decreasing, round1 |drift_percent td|⟩)
        else some (false, none)) ∧
    (drift_percent c8_steady_trend = 10 ∧
      detect_drift c8_steady_trend = some (false, none)) ∧
    (drift_percent c8_drifting_trend = 12 ∧
      detect_drift c8_drifting_trend =
        some (true, some ⟨DriftDirection.increasing, 12⟩)) := by
  refine ⟨?_, ?_, ⟨?_, ?_⟩, ⟨?_, ?_⟩⟩
  · intro td h
    have h14 : ¬ (14 ≤ td.length) := by omega
    have hprev : drift_previous td = [] := by
      rw [drift_previous, if_neg h14]
    simp [detect_drift, hprev]
  · intro td h14 havg
    have h7 : ¬ (td.length < 7) := by omega
    have hlen : (drift_previous td).length = 7 := by
      rw [drift_previous, if_pos h14]
      simp only [List.length_map, List.length_take, List.length_drop]
      omega
    have hne : drift_previous td ≠ [] := by
      intro h
      rw [h] at hlen
      simp at hlen
    simp only [detect_drift, if_neg h7, if_neg hne, if_neg havg]
  · with_unfolding_all rfl
  · with_unfolding_all rfl
  · with_unfolding_all rfl
  · with_unfolding_all rfl

/-- Witness for C8: the hypotheses of `detect_drift_spec` hold at the
concrete 14-point drifting trend. -/
theorem detect_drift_spec_witness :
    (c8_steady_trend.length < 14 + 1 ∧ 14 ≤ c8_drifting_trend.length) ∧
    detect_drift c8_drifting_trend =
      if 10 < |drift_percent c8_drifting_trend| then
        some (true, some ⟨if 0 < drift_percent c8_drifting_trend then DriftDirection.increasing
          else DriftDirection.decreasing, round1 |drift_percent c8_drifting_trend|⟩)
      else some (false, none) :=
  ⟨⟨by decide, by decide⟩,
    detect_drift_spec.2.1 c8_drifting_trend (by decide)
      (by rw [show drift_previous_avg c8_drifting_trend = 50 from by with_unfolding_all rfl]
          norm_num)⟩

/-- Every point produced by the `trend_points` loop has its zone computed by
`calculate_zone_status` on the point's raw (clamped, unrounded) score
against the baseline `b` the loop was given, and its stored score is that
raw score rounded to 2 decimals; the raw score is recovered from the
point's timestamp. -/
theorem trend_points_mem_spec (cs : ℚ) (days : ℕ) (b : Baseline) (noise : ℕ → ℚ)
    (ed : ℤ) :
    ∀ (n : ℕ) (p : TrendPoint), p ∈ trend_points cs days b noise ed n →
      p.score = round2 (trend_raw_score cs days noise (ed - p.timestamp).toNat) ∧
      p.zone = calculate_zone_status
        (trend_raw_score cs days noise (ed - p.timestamp).toNat) b := by
  intro n
  induction n with
  | zero =>
    intro p hp
    simp [trend_points] at hp
  | succ i ih =>
    intro p hp
    rw [trend_points] at hp
    rcases List.mem_cons.1 hp with h | h
    · subst h
      have ht : (ed - (ed - ((i : ℤ) + 1))).toNat = i + 1 := by omega
      constructor
      · show round2 (trend_raw_score cs days noise (i + 1)) = _
        rw [show TrendPoint.timestamp ⟨ed - ((i : ℤ) + 1), _, _⟩ = ed - ((i : ℤ) + 1) from rfl,
          ht]
      · show calculate_zone_status (trend_raw_score cs days noise (i + 1)) b = _
        rw [show TrendPoint.timestamp ⟨ed - ((i : ℤ) + 1), _, _⟩ = ed - ((i : ℤ) + 1) from rfl,
          ht]
    · exact ih p h

/-- C10: with `baseline = None`, every point of
`generate_historical_trend` is zone-classified against the fallback
thresholds `green_zone_max = 75.0`, `yellow_zone_max = 85.0`, which differ
from the documented default baseline (`green_zone_max = 80.0`,
`yellow_zone_max = 90.0`) returned by `get_default_baseline`; a point with
score 78 is yellow under the trend fallback but green under the default
baseline. -/
theorem trend_none_baseline_spec :
    (∀ (cs : ℚ) (days : ℕ) (noise : ℕ → ℚ) (ed : ℤ) (p : TrendPoint),
      p ∈ generate_historical_trend cs days none noise ed →
      p.score = round2 (trend_raw_score cs days noise (ed - p.timestamp).toNat) ∧
      p.zone = calculate_zone_status
        (trend_raw_score cs days noise (ed - p.timestamp).toNat)
        trend_fallback_baseline) ∧
    trend_fallback_baseline = ⟨75, 85⟩ ∧
    get_default_baseline.green_zone_max = 80 ∧
    get_default_baseline.yellow_zone_max = 90 ∧
    calculate_zone_status 78 trend_fallback_baseline = ZoneStatus.yellow ∧
    calculate_zone_status 78 ⟨get_default_baseline.green_zone_max,
      get_default_baseline.yellow_zone_max⟩ = ZoneStatus.green := by
  refine ⟨?_, by with_unfolding_all rfl, by with_unfolding_all rfl,
    by with_unfolding_all rfl, by with_unfolding_all rfl, by with_unfolding_all rfl⟩
  intro cs days noise ed p hp
  exact trend_points_mem_spec cs days trend_fallback_baseline noise ed days p hp

/-- Witness for C10: the membership hypothesis of `trend_none_baseline_spec`
holds for the single point generated by a one-day trend with `baseline =
None`, noise `+8` and current score 90 (raw score 78, zone yellow under the
fallback thresholds). -/
theorem trend_none_baseline_spec_witness :
    (⟨-1, 78, ZoneStatus.yellow⟩ : TrendPoint) ∈
      generate_historical_trend 90 1 none (fun _ => 8) 0 ∧
    (⟨-1, 78, ZoneStatus.yellow⟩ : TrendPoint).zone =
      calculate_zone_status
        (trend_raw_score 90 1 (fun _ => 8) ((0 : ℤ) - (-1 : ℤ)).toNat)
        trend_fallback_baseline := by
  have hmem : (⟨-1, 78, ZoneStatus.yellow⟩ : TrendPoint) ∈
      generate_historical_trend 90 1 none (fun _ => 8) 0 := by
    rw [show generate_historical_trend 90 1 none (fun _ => 8) 0
        = [⟨-1, 78, ZoneStatus.yellow⟩] from by with_unfolding_all rfl]
    exact List.mem_singleton.mpr rfl
  exact ⟨hmem,
    (trend_none_baseline_spec.1 90 1 (fun _ => 8) 0 ⟨-1, 78, ZoneStatus.yellow⟩ hmem).2⟩

/-- `detectors_table` and `parse_heuristic_type` recognize exactly the same
strings. -/
theorem detectors_table_none_iff (t : String) :
    detectors_table t = none ↔ parse_heuristic_type t = none := by
  unfold detectors_table parse_heuristic_type
  split_ifs <;> simp

/-- A detector found in `detectors_table` produces a result tagged with the
heuristic type that `parse_heuristic_type` assigns to the same string. -/
theorem detectors_table_heuristic_type (t : String)
    (d : ℕ → (ℕ → ℚ) → DetectionResult) (h : detectors_table t = some d)
    (iterations : ℕ) (draw : ℕ → ℚ) :
    parse_heuristic_type t = some ((d iterations draw).heuristic_type) := by
  unfold detectors_table at h
  unfold parse_heuristic_type
  split_ifs at h ⊢ <;>
    first
      | (injection h with h; subst h; rfl)
      | exact Option.noConfusion h

/-- The `run_detection` loop, started at any randomness index, emits the
heuristic types recognized by the detector table, in input order. -/
theorem run_detection_from_map (iterations : ℕ) (draws : ℕ → ℕ → ℚ) :
    ∀ (types : List String) (k : ℕ),
      (run_detection_from types iterations draws k).map DetectionResult.heuristic_type
        = types.filterMap parse_heuristic_type := by
  intro types
  induction types with
  | nil => intro k; rfl
  | cons t rest ih =>
    intro k
    rw [run_detection_from]
    cases hdt : detectors_table t with
    | none =>
      rw [List.filterMap_cons_none ((detectors_table_none_iff t).1 hdt)]
      exact ih k
    | some d =>
      rw [List.map_cons,
        List.filterMap_cons_some
          (detectors_table_heuristic_type t d hdt iterations (draws k)),
        ih (k + 1)]

/-- C9: `run_detection` returns exactly one finding per recognized
heuristic-type string (member of the five-string detector table), in input
order, and silently skips every unrecognized string without raising: the
emitted heuristic types are exactly `filterMap parse_heuristic_type` of the
input list. -/
theorem run_detection_spec (heuristic_types : List String) (iterations : ℕ)
    (draws : ℕ → ℕ → ℚ) :
    (run_detection heuristic_types iterations draws).map DetectionResult.heuristic_type
      = heuristic_types.filterMap parse_heuristic_type :=
  run_detection_from_map iterations draws heuristic_types 0

/-- Inserting into a list with `orderedInsert` under `rec_order` does not
change the sublist of any fixed priority beyond prepending the inserted
element when it has that priority: the filter by an exact priority of the
insertion equals the filter of plain consing.  This is the stability of the
insertion step (an element is never inserted in front of an equal-priority
element already present). -/
theorem filter_orderedInsert_priority (v : ℤ) (x : RecommendationData) :
    ∀ l : List RecommendationData,
      (l.orderedInsert rec_order x).filter (fun r => decide (r.priority = v))
        = (x :: l).filter (fun r => decide (r.priority = v)) := by
  intro l
  induction l with
  | nil => rfl
  | cons y ys ih =>
    by_cases hxy : rec_order x y
    · rw [List.orderedInsert, if_pos hxy]
    · rw [List.orderedInsert, if_neg hxy]
      have hlt : x.priority < y.priority := by
        simpa [rec_order, not_le] using hxy
      by_cases hy : y.priority = v
      · have hx : ¬ (x.priority = v) := by omega
        simp [List.filter_cons, hy, hx, ih]
      · simp [List.filter_cons, hy, ih]

/-- The stable sort of the recommendation list preserves the relative order
of equal-priority entries: filtering by any exact priority commutes with
the sort. -/
theorem filter_insertionSort_priority (v : ℤ) :
    ∀ l : List RecommendationData,
      (l.insertionSort rec_order).filter (fun r => decide (r.priority = v))
        = l.filter (fun r => decide (r.priority = v)) := by
  intro l
  induction l with
  | nil => rfl
  | cons x xs ih =>
    rw [List.insertionSort, filter_orderedInsert_priority, List.filter_cons,
      List.filter_cons, ih]

/-- C7: `generate_recommendations` returns at most 7 recommendations, sorted
in descending order of priority, and among recommendations of equal
priority the original generation order (findings order, then template order
within each heuristic type's catalog, i.e. the order of
`recommendation_candidates`) is preserved: the returned list filtered to any
fixed priority is an initial segment of the candidate list filtered to that
priority. -/
theorem generate_recommendations_spec (findings : List FindingData) (mode : String) :
    (generate_recommendations findings mode).length ≤ 7 ∧
    List.Sorted rec_order (generate_recommendations findings mode) ∧
    ∀ v : ℤ, ∃ rest,
      (recommendation_candidates findings).filter (fun r => decide (r.priority = v))
        = (generate_recommendations findings mode).filter
            (fun r => decide (r.priority = v)) ++ rest := by
  refine ⟨?_, ?_, ?_⟩
  · rw [show generate_recommendations findings mode
        = ((recommendation_candidates findings).insertionSort rec_order).take 7 from rfl,
      List.length_take]
    exact min_le_left _ _
  · exact List.Pairwise.sublist (List.take_sublist 7 _)
      (List.sorted_insertionSort rec_order (recommendation_candidates findings))
  · intro v
    refine ⟨((((recommendation_candidates findings).insertionSort rec_order).drop 7).filter
      (fun r => decide (r.priority = v))), ?_⟩
    rw [show generate_recommendations findings mode
        = ((recommendation_candidates findings).insertionSort rec_order).take 7 from rfl,
      ← List.filter_append, List.take_append_drop, filter_insertionSort_priority]

example : generate_recommendations [] "technical" = [] := by with_unfolding_all rfl
